import Mathlib

set_option maxHeartbeats 1000000

/-! Shallow embedding of the host-environment discovery and configuration
reconciliation logic of src/index.js (dexilion-team/cde).

External effects (subprocess spawns, filesystem probes, interactive prompt
answers) are modelled as explicit inputs: each environment structure records
the outcome the corresponding system call would produce, and the embedded
functions are the pure control flow of the source over those outcomes. -/

/-- JS truthiness of an optional string field (`undefined` and `""` are falsy). -/
def jsTruthy : Option String → Bool
  | none => false
  | some s => s != ""

/-- JS `a || b` for string-or-null values, as in `getExternalIP() || config.externalIP`. -/
def jsOrOpt (a b : Option String) : Option String :=
  if jsTruthy a then a else b

/-- JS `a || b` where the fallback is a plain string, as in `getDockerSocketPath() || ''`. -/
def jsOrStr (a : Option String) (b : String) : String :=
  match a with
  | some s => if s = "" then b else s
  | none => b

/-- Model of promptUser (src/index.js:323-339): it resolves
`answer.trim() || defaultValue`; `answer` is the already-trimmed line typed. -/
def promptUserR (answer defaultValue : String) : String :=
  if answer = "" then defaultValue else answer

/-- Model of promptUser when the default may be `undefined` (the revalidation
re-prompt passes `getExternalIP() || config.externalIP` as default). -/
def promptUserOpt (answer : String) (defaultValue : Option String) : Option String :=
  if answer = "" then defaultValue else some answer

/-- First hit of `f` over a list, mirroring a for-loop that returns on success. -/
def findSomeL {α β : Type} : List α → (α → Option β) → Option β
  | [], _ => none
  | a :: as, f =>
    match f a with
    | some b => some b
    | none => findSomeL as f

/-- Model of JS `s.startsWith(p)` (used on ASCII literals in the source). -/
def strStarts (s p : String) : Bool := List.isPrefixOf p.data s.data

/-- Function getOS (src/index.js:14-19). -/
def getOS (platform : String) : String :=
  if ["win32", "cygwin"].contains platform then "windows" else platform

/-- JSON values as produced by `JSON.parse`. -/
inductive Json where
  | null
  | bool (b : Bool)
  | num (n : Int)
  | str (s : String)
  | arr (elems : List Json)
  | obj (fields : List (String × Json))

/-- Outcome of the `existsSync`/`readFileSync`/`JSON.parse` prelude of getConfig. -/
inductive FileRead where
  | absent
  | invalid
  | parsed (j : Json)

/-- Observable result of getConfig (src/index.js:25-50). -/
inductive ConfigResult where
  | noConfig
  | ok (fields : List (String × Json))
  | errInvalidJson (path : String)
  | errNotObject

/-- Test `typeof config === 'object' && config !== null && !Array.isArray(config)`
from src/index.js:36. -/
def isPlainObject : Json → Bool
  | Json.obj _ => true
  | _ => false

/-- Function getConfig (src/index.js:25-50): an absent file yields null; a
SyntaxError from `JSON.parse` is rewrapped into an error naming the path; a
parsed value that is not a plain object raises the object error; a parsed
object is returned as-is. -/
def getConfig (configPath : String) (file : FileRead) : ConfigResult :=
  match file with
  | FileRead.absent => ConfigResult.noConfig
  | FileRead.invalid => ConfigResult.errInvalidJson configPath
  | FileRead.parsed j =>
    match j with
    | Json.obj fields => ConfigResult.ok fields
    | _ => ConfigResult.errNotObject

/-- Host-environment inputs consumed by socket discovery: platform string,
numeric UID, home directory, and the exit status that the disposable
`docker run ... docker version` round-trip of checkDockerSocketAccess
(src/index.js:86-110) would report for each candidate path (`none` means the
spawn itself threw or timed out). -/
structure SocketEnv where
  platform : String
  uid : Nat
  home : String
  runSpawn : String → Option Int

/-- Function checkDockerSocketAccess (src/index.js:86-110): a zero exit status
of the containerized version query is the only success signal; any failure or
thrown error yields false. The docker-versus-podman executable choice does not
change the result shape and is absorbed into `runSpawn`. -/
def checkDockerSocketAccess (env : SocketEnv) (socketPath : String) : Bool :=
  match env.runSpawn socketPath with
  | some st => st == 0
  | none => false

/-- List defaultSocketPaths as built by getDockerSocketPath
(src/index.js:116-134); `join(homedir(), ...)` is modelled as concatenation. -/
def defaultSocketPaths (env : SocketEnv) : List String :=
  let base := ["/var/run/docker.sock",
               "/run/docker.sock",
               env.home ++ "/.docker/desktop/docker.sock",
               "/usr/local/var/run/docker.sock"]
  if getOS env.platform ≠ "windows" then
    base ++ ["/run/user/" ++ toString env.uid ++ "/docker.sock",
             "/run/user/" ++ toString env.uid ++ "/podman/podman.sock"]
  else
    base

/-- Function getDockerSocketPath (src/index.js:116-143): the first candidate
whose live validation succeeds, null when none validates. -/
def getDockerSocketPath (env : SocketEnv) : Option String :=
  (defaultSocketPaths env).find? (fun p => checkDockerSocketAccess env p)

/-- Candidate list as described by the spec sentence behind claim C6 (spec §4.3
step 2): standard Unix path, then the user-scoped UID path, then the desktop
path under home, then the package-manager path, and on POSIX only a user-scoped
podman socket; on Windows the user-ID-based candidates are excluded. -/
def claimedSocketPaths (env : SocketEnv) : List String :=
  if getOS env.platform = "windows" then
    ["/var/run/docker.sock",
     env.home ++ "/.docker/desktop/docker.sock",
     "/usr/local/var/run/docker.sock"]
  else
    ["/var/run/docker.sock",
     "/run/user/" ++ toString env.uid ++ "/docker.sock",
     env.home ++ "/.docker/desktop/docker.sock",
     "/usr/local/var/run/docker.sock",
     "/run/user/" ++ toString env.uid ++ "/podman/podman.sock"]

/-- Nondeterministic regex step: match one literal character, returning the
possible remainders. -/
def rchar (c : Char) (cs : List Char) : List (List Char) :=
  match cs with
  | d :: rest => if d = c then [rest] else []
  | [] => []

/-- Nondeterministic regex step: match one character of a range, compared on
code points. -/
def rrange (lo hi : Char) (cs : List Char) : List (List Char) :=
  match cs with
  | d :: rest => if lo.toNat ≤ d.toNat ∧ d.toNat ≤ hi.toNat then [rest] else []
  | [] => []

/-- Regex sequencing over remainder sets. -/
def rseq (p q : List Char → List (List Char)) (cs : List Char) : List (List Char) :=
  (p cs).flatMap q

/-- Regex alternation over remainder sets. -/
def ralt (p q : List Char → List (List Char)) (cs : List Char) : List (List Char) :=
  p cs ++ q cs

/-- Regex optionality `p?` over remainder sets. -/
def ropt (p : List Char → List (List Char)) (cs : List Char) : List (List Char) :=
  p cs ++ [cs]

/-- One octet of the ipRegex of isIPAvailable (src/index.js:663):
`25[0-5]|2[0-4][0-9]|[01]?[0-9][0-9]?`. -/
def octetRe : List Char → List (List Char) :=
  ralt (rseq (rchar '2') (rseq (rchar '5') (rrange '0' '5')))
    (ralt (rseq (rchar '2') (rseq (rrange '0' '4') (rrange '0' '9')))
      (rseq (ropt (rrange '0' '1')) (rseq (rrange '0' '9') (ropt (rrange '0' '9')))))

/-- One octet followed by a literal dot. -/
def octetDotRe : List Char → List (List Char) :=
  rseq octetRe (rchar '.')

/-- The full anchored ipRegex of isIPAvailable (src/index.js:663):
`^(?:octet\.){3}octet$`. -/
def ipRe : List Char → List (List Char) :=
  rseq octetDotRe (rseq octetDotRe (rseq octetDotRe octetRe))

/-- Anchored full-string test `ipRegex.test(ip)` (src/index.js:664): the
pattern must consume the whole string. -/
def ipRegexTest (s : String) : Bool :=
  (ipRe s.data).contains []

/-- Decimal digit test on code points. -/
def isDigitCh (c : Char) : Bool :=
  48 ≤ c.toNat && c.toNat ≤ 57

/-- Numeric value of a decimal digit string. -/
def octetValue (l : List Char) : Nat :=
  l.foldl (fun acc c => acc * 10 + (c.toNat - 48)) 0

/-- Decimal octet in 0-255, as the words of the spec and of claim C7 describe
one dot-separated component: a nonempty digit string denoting a value
at most 255. -/
def octB (l : List Char) : Bool :=
  !l.isEmpty && l.all isDigitCh && decide (octetValue l ≤ 255)

/-- Split a character list on literal dots. -/
def splitDots : List Char → List (List Char)
  | [] => [[]]
  | c :: rest =>
    if c = '.' then [] :: splitDots rest
    else
      match splitDots rest with
      | t :: ts => (c :: t) :: ts
      | [] => [[c]]

/-- Dotted-quad format, modelled from the words of the spec behind claim C7:
exactly four dot-separated decimal octets, each in 0-255. -/
def dottedQuadB (s : String) : Bool :=
  match splitDots s.data with
  | [a, b, c, d] => octB a && octB b && octB c && octB d
  | _ => false

/-- Greedy run of at most `n` decimal digits, with the remainder. For the
patterns below a digit run is always followed by a non-digit requirement
(a literal dot, whitespace, or end/anything), so greedy matching without
backtracking is equivalent to the JS regex engine's behaviour. -/
def takeDigits : Nat → List Char → List Char × List Char
  | 0, cs => ([], cs)
  | _ + 1, [] => ([], [])
  | n + 1, c :: rest =>
    if isDigitCh c then
      let (ds, r) := takeDigits n rest
      (c :: ds, r)
    else ([], c :: rest)

/-- Matcher for `[0-9]{1,3}`: one to three digits, greedily. -/
def octetTake (cs : List Char) : Option (List Char × List Char) :=
  match takeDigits 3 cs with
  | ([], _) => none
  | (ds, rest) => some (ds, rest)

/-- Matcher for a single literal character. -/
def expectChar (c : Char) : List Char → Option (List Char)
  | d :: rest => if d = c then some rest else none
  | [] => none

/-- Matcher for `[0-9]{1,3}\.[0-9]{1,3}\.[0-9]{1,3}\.[0-9]{1,3}`, the loose
quad used by the command-line discovery regexes (src/index.js:244, 281, 288,
294); returns the matched characters and the remainder. -/
def quadTake (cs : List Char) : Option (List Char × List Char) :=
  match octetTake cs with
  | none => none
  | some (a1, r1) =>
    match expectChar '.' r1 with
    | none => none
    | some r2 =>
      match octetTake r2 with
      | none => none
      | some (b1, r3) =>
        match expectChar '.' r3 with
        | none => none
        | some r4 =>
          match octetTake r4 with
          | none => none
          | some (c1, r5) =>
            match expectChar '.' r5 with
            | none => none
            | some r6 =>
              match octetTake r6 with
              | none => none
              | some (d1, r7) =>
                some (a1 ++ '.' :: b1 ++ '.' :: c1 ++ '.' :: d1, r7)

/-- Anchored test of the hostname regex
`^[0-9]{1,3}\.[0-9]{1,3}\.[0-9]{1,3}\.[0-9]{1,3}$` (src/index.js:281). -/
def simpleQuadTest (s : String) : Bool :=
  match quadTake s.data with
  | some (_, rest) => rest.isEmpty
  | none => false

/-- Characters matched by the JS regex class `\s` that occur in tool output. -/
def wsChar (c : Char) : Bool :=
  c = ' ' || c = '\t' || c = '\n' || c = '\r' || c = '\x0b' || c = '\x0c'

/-- Greedy run of whitespace with the remainder; the patterns below follow
`\s+` with a non-whitespace requirement, so greediness is exact. -/
def takeWs : List Char → List Char × List Char
  | [] => ([], [])
  | c :: rest =>
    if wsChar c then
      let (ws, r) := takeWs rest
      (c :: ws, r)
    else ([], c :: rest)

/-- Attempt of the regex `src\s+(quad)` (src/index.js:288) at the head of the
list, yielding the captured quad. -/
def matchSrcAt : List Char → Option String
  | 's' :: 'r' :: 'c' :: rest =>
    let (ws, r2) := takeWs rest
    if ws.isEmpty then none
    else
      match quadTake r2 with
      | some (q, _) => some (String.mk q)
      | none => none
  | _ => none

/-- Leftmost match of `src\s+(quad)` over the output, as
`output.match(/src\s+(...)/)` computes it (src/index.js:288). -/
def findSrcQuad : List Char → Option String
  | [] => none
  | c :: rest =>
    match matchSrcAt (c :: rest) with
    | some q => some q
    | none => findSrcQuad rest

/-- Optional `(?:addr:)?` tag. If the tag is present but no quad follows, the
regex engine's fallback of re-trying without the tag also fails (a quad cannot
start at the letter `a`), so consuming the tag unconditionally is exact. -/
def dropAddrTag : List Char → List Char
  | 'a' :: 'd' :: 'd' :: 'r' :: ':' :: rest => rest
  | cs => cs

/-- Attempt of the regex `inet\s+(?:addr:)?(quad)` (src/index.js:294) at the
head of the list, yielding the captured quad. -/
def matchInetAt : List Char → Option String
  | 'i' :: 'n' :: 'e' :: 't' :: rest =>
    let (ws, r2) := takeWs rest
    if ws.isEmpty then none
    else
      match quadTake (dropAddrTag r2) with
      | some (q, _) => some (String.mk q)
      | none => none
  | _ => none

/-- Iteration of `ipRegex.exec` over the output (src/index.js:295-301): the
first captured quad that passes the loopback and link-local exclusions is
returned. The JS loop resumes each search at the end of the previous match;
restarting one character after the match start is equivalent here, because the
literal `inet` cannot begin strictly inside a matched span (the span consists
of `inet`, whitespace, optionally `addr:`, digits and dots, none of which
contains the letter `i` past the start). -/
def findInetQuad : List Char → Option String
  | [] => none
  | c :: rest =>
    match matchInetAt (c :: rest) with
    | some q =>
      if strStarts q "127." || strStarts q "169.254." then findInetQuad rest
      else some q
    | none => findInetQuad rest

/-- Tokenizer for `output.trim().split(/\s+/)` (src/index.js:279); the
accumulator holds the current token reversed. -/
def splitWsAux : List Char → List Char → List String
  | [], acc => if acc.isEmpty then [] else [String.mk acc.reverse]
  | c :: rest, acc =>
    if wsChar c then
      if acc.isEmpty then splitWsAux rest []
      else String.mk acc.reverse :: splitWsAux rest []
    else splitWsAux rest (c :: acc)

/-- Whitespace-separated tokens of a command output. -/
def splitWs (cs : List Char) : List String :=
  splitWsAux cs []

/-- Acceptance test applied to each hostname token (src/index.js:281-282). -/
def hostnameIpOk (ip : String) : Bool :=
  simpleQuadTest ip && !(strStarts ip "127.") && !(strStarts ip "169.254.")

/-- Parser of the `hostname -I` branch (src/index.js:277-285). -/
def parseHostnameOut (out : String) : Option String :=
  (splitWs out.data).find? hostnameIpOk

/-- Parser of the `ip route get` branch (src/index.js:286-291): the captured
src quad, with no exclusion filtering. -/
def parseIpRouteOut (out : String) : Option String :=
  findSrcQuad out.data

/-- Parser of the `ifconfig` and `route get default` branches
(src/index.js:292-302). -/
def parseInetOut (out : String) : Option String :=
  findInetQuad out.data

/-- Results the four POSIX discovery commands would produce: exit status and
stdout, or `none` when the spawn itself threw (src/index.js:266-272, 304-307). -/
structure CmdEnv where
  hostnameI : Option (Int × String)
  ipRoute : Option (Int × String)
  ifconfig : Option (Int × String)
  routeGet : Option (Int × String)

/-- Per-command step of the POSIX loop (src/index.js:266-308): the parser runs
only when the command exited zero with nonempty stdout; otherwise, and when the
parser finds nothing, the loop falls through to the next command. -/
def runCmdStrategy (res : Option (Int × String)) (parse : String → Option String) :
    Option String :=
  match res with
  | some (status, out) => if status = 0 ∧ out ≠ "" then parse out else none
  | none => none

/-- Strategy one: `hostname -I`. -/
def hostnameStrategy (env : CmdEnv) : Option String :=
  runCmdStrategy env.hostnameI parseHostnameOut

/-- Strategy two: `ip route get 1.1.1.1`. -/
def ipRouteStrategy (env : CmdEnv) : Option String :=
  runCmdStrategy env.ipRoute parseIpRouteOut

/-- Strategy three: `ifconfig`. -/
def ifconfigStrategy (env : CmdEnv) : Option String :=
  runCmdStrategy env.ifconfig parseInetOut

/-- Strategy four: `route get default`. -/
def routeGetStrategy (env : CmdEnv) : Option String :=
  runCmdStrategy env.routeGet parseInetOut

/-- Function getExternalIPCommandLine, non-windows arm (src/index.js:253-311):
the four commands are tried in order and the first hit wins. -/
def getExternalIPCommandLinePosix (env : CmdEnv) : Option String :=
  match hostnameStrategy env with
  | some ip => some ip
  | none =>
    match ipRouteStrategy env with
    | some ip => some ip
    | none =>
      match ifconfigStrategy env with
      | some ip => some ip
      | none => routeGetStrategy env

/-- One entry of `os.networkInterfaces()`: address family, internal flag, and
address string. -/
structure NetAddr where
  family : String
  internal : Bool
  address : String
deriving DecidableEq

/-- Enumeration of `os.networkInterfaces()` in key order: interface name with
its bound addresses. -/
abbrev Nets : Type := List (String × List NetAddr)

/-- Priority interface-name prefixes (src/index.js:185). -/
def interfaceNamePriorities : List String :=
  ["eth", "en", "wlan", "wifi", "ethernet"]

/-- Acceptance test of the scan loops (src/index.js:195, 210): IPv4 and not
internal. -/
def goodAddr (a : NetAddr) : Bool :=
  a.family == "IPv4" && !a.internal

/-- Inner loop over one interface's addresses: first acceptable address. -/
def findGoodAddr (addrs : List NetAddr) : Option String :=
  findSomeL addrs (fun a => if goodAddr a then some a.address else none)

/-- ASCII lower-casing of one character, as `toLowerCase()` acts on the
ASCII interface names involved. -/
def lowerChar (c : Char) : Char :=
  if 65 ≤ c.toNat ∧ c.toNat ≤ 90 then Char.ofNat (c.toNat + 32) else c

/-- Test `name.toLowerCase().startsWith(priority)` (src/index.js:190). -/
def nameHasPriorityTag (p : String) (name : String) : Bool :=
  strStarts (String.mk (name.data.map lowerChar)) p

/-- First pass of getExternalIP (src/index.js:188-202): for each priority
prefix in order, for each interface in enumeration order, the first acceptable
address of a matching interface. -/
def firstPassScan (nets : Nets) : Option String :=
  findSomeL interfaceNamePriorities (fun p =>
    findSomeL nets (fun e =>
      if nameHasPriorityTag p e.1 then findGoodAddr e.2 else none))

/-- Second pass of getExternalIP (src/index.js:205-215): first acceptable
address over all interfaces in enumeration order. -/
def secondPassScan (nets : Nets) : Option String :=
  findSomeL nets (fun e => findGoodAddr e.2)

/-- All addresses in enumeration order, used to state what "first acceptable
address over all interfaces" means. -/
def allAddrs (nets : Nets) : List NetAddr :=
  nets.flatMap (fun e => e.2)

/-- Function getExternalIP (src/index.js:179-224) on a POSIX host: the
two-pass interface scan, falling back to the command-line discovery when both
passes find nothing. -/
def getExternalIP (nets : Nets) (cmd : CmdEnv) : Option String :=
  match firstPassScan nets with
  | some ip => some ip
  | none =>
    match secondPassScan nets with
    | some ip => some ip
    | none => getExternalIPCommandLinePosix cmd

/-- The reconciled configuration record (the three persisted keys of
src/index.js:375-379); absent keys are `none`. -/
structure Config where
  dockerSocket : Option String
  sshKeysDir : Option String
  externalIP : Option String
deriving DecidableEq

/-- Inputs the main flow (src/index.js:740-794) consumes: discovery results,
filesystem probe, ping outcomes, and the already-trimmed answers the user
would type at each prompt. -/
structure MainEnv where
  discoveredSocket : Option String
  discoveredIP : Option String
  sshDirFound : Option String
  dirExists : String → Bool
  ping : String → Option Int
  answerSocket : String
  answerIP : String
  answerSsh : String
  answerReplacementIP : String

/-- Function isIPAvailable (src/index.js:655-696): falsy or badly formatted
input yields false; otherwise one ICMP echo is issued and the function returns
`status === 0` (src/index.js:691); a spawn error yields false. -/
def isIPAvailable (env : MainEnv) (ip : Option String) : Bool :=
  match ip with
  | none => false
  | some s =>
    if s = "" then false
    else if ipRegexTest s then
      match env.ping s with
      | some st => st == 0
      | none => false
    else false

/-- Either a fatal `process.exit(1)` or a configuration to continue with. -/
inductive GatherResult where
  | fatal (msg : String)
  | ok (cfg : Config)
deriving DecidableEq

/-- Docker-socket prompt of the gather block (src/index.js:747-754). -/
def gatherSocketStep (env : MainEnv) (cfg : Config) : GatherResult :=
  if jsTruthy cfg.dockerSocket then GatherResult.ok cfg
  else
    let v := promptUserR env.answerSocket (jsOrStr env.discoveredSocket "")
    if v = "" then GatherResult.fatal "Docker socket is required"
    else GatherResult.ok { cfg with dockerSocket := some v }

/-- External-IP prompt of the gather block (src/index.js:756-763). -/
def gatherIPStep (env : MainEnv) (cfg : Config) : GatherResult :=
  if jsTruthy cfg.externalIP then GatherResult.ok cfg
  else
    let v := promptUserR env.answerIP (jsOrStr env.discoveredIP "")
    if v = "" then GatherResult.fatal "IP address is required"
    else GatherResult.ok { cfg with externalIP := some v }

/-- SSH-directory step of the gather block (src/index.js:765-775): a found
directory is recorded; otherwise the user is prompted and a nonempty answer is
recorded only when `existsSync` reports it present. -/
def gatherSshStep (env : MainEnv) (cfg : Config) : Config :=
  match env.sshDirFound with
  | some d => { cfg with sshKeysDir := some d }
  | none =>
    let ans := promptUserR env.answerSsh ""
    if ans ≠ "" ∧ env.dirExists ans then { cfg with sshKeysDir := some ans }
    else cfg

/-- The gather block (src/index.js:746-775) in source order. -/
def gatherPhase (env : MainEnv) (cfg : Config) : GatherResult :=
  match gatherSocketStep env cfg with
  | GatherResult.fatal m => GatherResult.fatal m
  | GatherResult.ok c1 =>
    match gatherIPStep env c1 with
    | GatherResult.fatal m => GatherResult.fatal m
    | GatherResult.ok c2 => GatherResult.ok (gatherSshStep env c2)

/-- Load, gather and persist (src/index.js:743-781). The entry condition is
written exactly as in the source: `!config || !config.externalIP ||
!config.externalIP` tests externalIP twice and never dockerSocket (after
`getConfig() ?? {}` the `!config` disjunct is constantly false). When the
gather block runs, saveConfig (src/index.js:371-383) overwrites the file with
the merged record; the second component is the file content afterwards. -/
def loadAndGather (env : MainEnv) (loaded : Option Config) (fs0 : Option Config) :
    GatherResult × Option Config :=
  let cfg := loaded.getD { dockerSocket := none, sshKeysDir := none, externalIP := none }
  if !(jsTruthy cfg.externalIP) || !(jsTruthy cfg.externalIP) then
    match gatherPhase env cfg with
    | GatherResult.fatal m => (GatherResult.fatal m, fs0)
    | GatherResult.ok c => (GatherResult.ok c, some c)
  else
    (GatherResult.ok cfg, fs0)

/-- Post-load revalidation (src/index.js:783-786): when isIPAvailable reports
false the user is re-prompted, defaulting to `getExternalIP() ||
config.externalIP`; the boolean records whether the re-prompt happened. -/
def revalidatePhase (env : MainEnv) (cfg : Config) : Config × Bool :=
  if isIPAvailable env cfg.externalIP then (cfg, false)
  else
    ({ cfg with
        externalIP := promptUserOpt env.answerReplacementIP
          (jsOrOpt env.discoveredIP cfg.externalIP) },
      true)

/-- Terminal outcome of the reconciliation flow: a fatal exit or a handoff of
the resolved configuration to the container launch. -/
inductive MainOutcome where
  | fatal (msg : String)
  | launch (cfg : Config)
deriving DecidableEq

/-- Observable result of one run of main: the outcome, the configuration-file
content at the end, and whether the revalidation re-prompt fired. -/
structure RunResult where
  outcome : MainOutcome
  fileState : Option Config
  reprompted : Bool
deriving DecidableEq

/-- The reconciliation flow of main (src/index.js:740-793): load and gather,
then revalidate, then hand off to the launch step. No further write to the
configuration file occurs after the persist step. -/
def mainRun (env : MainEnv) (loaded : Option Config) (fs0 : Option Config) : RunResult :=
  match loadAndGather env loaded fs0 with
  | (GatherResult.fatal m, fs1) =>
    { outcome := MainOutcome.fatal m, fileState := fs1, reprompted := false }
  | (GatherResult.ok cfg, fs1) =>
    let r := revalidatePhase env cfg
    { outcome := MainOutcome.launch r.1, fileState := fs1, reprompted := r.2 }

/-- Host with platform `linux`, UID 1000, home `/home/user`, every socket
round-trip failing to spawn. -/
def socketEnvLinux : SocketEnv :=
  { platform := "linux", uid := 1000, home := "/home/user", runSpawn := fun _ => none }

/-- Host on which every candidate socket fails its validation round-trip. -/
def socketEnvAllFail : SocketEnv :=
  { platform := "linux", uid := 1000, home := "/home/user", runSpawn := fun _ => some 125 }

/-- Scenario for claim C1: the echo probe against any address exits with
status zero (something answered the ping). -/
def pingZeroMainEnv : MainEnv :=
  { discoveredSocket := none, discoveredIP := none, sshDirFound := none,
    dirExists := fun _ => false, ping := fun _ => some 0,
    answerSocket := "", answerIP := "", answerSsh := "",
    answerReplacementIP := "192.168.1.50" }

/-- Persisted configuration for the C1 scenario. -/
def cfgPersistedFull : Config :=
  { dockerSocket := some "/var/run/docker.sock", sshKeysDir := none,
    externalIP := some "10.0.0.5" }

/-- Scenario for claim C2: socket discovery would find a socket and the user
would accept every default, yet the loaded file lacks dockerSocket. -/
def c2MainEnv : MainEnv :=
  { discoveredSocket := some "/var/run/docker.sock", discoveredIP := some "10.0.0.6",
    sshDirFound := none, dirExists := fun _ => false, ping := fun _ => some 0,
    answerSocket := "", answerIP := "", answerSsh := "", answerReplacementIP := "" }

/-- Loaded configuration for the C2 scenario: externalIP present, dockerSocket
missing. -/
def cfgMissingSocket : Config :=
  { dockerSocket := none, sshKeysDir := none, externalIP := some "10.0.0.5" }

/-- Command outputs for the C5 counterexample: `hostname -I` fails, and
`ip route get` reports a loopback source address while `ifconfig` holds a
perfectly good one. -/
def c5CexCmdEnv : CmdEnv :=
  { hostnameI := some (1, ""),
    ipRoute := some (0, "1.1.1.1 via 10.0.0.1 dev eth0 src 127.0.0.1 uid 1000"),
    ifconfig := some (0, "eth0: inet 10.0.0.7 netmask 255.255.255.0"),
    routeGet := none }

/-- Command outputs for the C5 witness: `hostname -I` succeeds. -/
def c5WitCmdEnv : CmdEnv :=
  { hostnameI := some (0, "10.0.0.5 fe80::1"),
    ipRoute := none, ifconfig := none, routeGet := none }

/-- Command environment in which every discovery command fails to spawn. -/
def cmdEnvAllFail : CmdEnv :=
  { hostnameI := none, ipRoute := none, ifconfig := none, routeGet := none }

/-- Environment for the C7 witness; the probe would report in-use for any
address, exposing that badly formatted input never reaches it. -/
def c7MainEnv : MainEnv :=
  { discoveredSocket := none, discoveredIP := none, sshDirFound := none,
    dirExists := fun _ => false, ping := fun _ => some 0,
    answerSocket := "", answerIP := "", answerSsh := "", answerReplacementIP := "" }

/-- Interface enumeration for the C8 witness: a non-priority interface with an
acceptable address appears before a priority-named one. -/
def netsC8 : Nets :=
  [("docker0", [{ family := "IPv4", internal := false, address := "172.17.0.1" }]),
   ("eth0", [{ family := "IPv4", internal := false, address := "10.0.0.7" }])]

/-- Scenario for the C9 witness: the echo probe fails (address free per the
code), so the revalidation re-prompt fires. -/
def c9MainEnv : MainEnv :=
  { discoveredSocket := none, discoveredIP := none, sshDirFound := none,
    dirExists := fun _ => false, ping := fun _ => some 1,
    answerSocket := "", answerIP := "", answerSsh := "",
    answerReplacementIP := "10.0.0.9" }

/-- Scenario for the C10 witness: no SSH directory is discovered, the user
supplies a path, and the filesystem reports it absent. -/
def c10MainEnv : MainEnv :=
  { discoveredSocket := none, discoveredIP := none, sshDirFound := none,
    dirExists := fun _ => false, ping := fun _ => some 0,
    answerSocket := "/var/run/docker.sock", answerIP := "10.0.0.5",
    answerSsh := "/home/user/missing-keys", answerReplacementIP := "" }

/-- Starting configuration for the C10 witness. -/
def cfgEmpty : Config :=
  { dockerSocket := none, sshKeysDir := none, externalIP := none }

theorem findSomeL_eq_none {α β : Type} {l : List α} {f : α → Option β} :
    findSomeL l f = none ↔ ∀ a ∈ l, f a = none := by
  induction l with
  | nil => simp [findSomeL]
  | cons a as ih =>
    simp only [findSomeL]
    cases h : f a with
    | some b => simp [h]
    | none => simp [h, ih]

theorem findSomeL_some {α β : Type} {l : List α} {f : α → Option β} {b : β}
    (h : findSomeL l f = some b) : ∃ a ∈ l, f a = some b := by
  induction l with
  | nil => simp [findSomeL] at h
  | cons a as ih =>
    simp only [findSomeL] at h
    cases ha : f a with
    | some c =>
      rw [ha] at h
      simp at h
      exact ⟨a, by simp, by rw [ha, h]⟩
    | none =>
      rw [ha] at h
      obtain ⟨x, hx, hfx⟩ := ih h
      exact ⟨x, by simp [hx], hfx⟩

/-- Claim C3: socket discovery returns a candidate only when the live
round-trip reported a zero exit status for exactly that path, and when every
candidate fails the validation the result is null, not a default and not an
error. -/
theorem c3_socket_discovery_validated (env : SocketEnv) :
    (∀ p, getDockerSocketPath env = some p →
      checkDockerSocketAccess env p = true ∧ env.runSpawn p = some 0 ∧
      p ∈ defaultSocketPaths env)
    ∧ ((∀ p ∈ defaultSocketPaths env, checkDockerSocketAccess env p = false) →
      getDockerSocketPath env = none) := by
  constructor
  · intro p hp
    have hacc : checkDockerSocketAccess env p = true := List.find?_some hp
    have hmem : p ∈ defaultSocketPaths env := List.mem_of_find?_eq_some hp
    refine ⟨hacc, ?_, hmem⟩
    unfold checkDockerSocketAccess at hacc
    cases h : env.runSpawn p with
    | none => rw [h] at hacc; cases hacc
    | some st =>
      rw [h] at hacc
      have : st = 0 := by simpa using hacc
      rw [this]
  · intro hall
    apply List.find?_eq_none.mpr
    intro p hmem
    simp [hall p hmem]

theorem c3_socket_discovery_validated_witness :
    getDockerSocketPath socketEnvAllFail = none :=
  (c3_socket_discovery_validated socketEnvAllFail).2 (fun _ _ => rfl)

/-- Claim C4: the loader yields the plain-object error for valid JSON that is
not an object, an error naming the offending path for invalid JSON, and the
distinct no-configuration result for an absent file. -/
theorem c4_config_loader_cases (path : String) (file : FileRead) :
    (∀ j, file = FileRead.parsed j → isPlainObject j = false →
      getConfig path file = ConfigResult.errNotObject)
    ∧ (file = FileRead.invalid → getConfig path file = ConfigResult.errInvalidJson path)
    ∧ (file = FileRead.absent → getConfig path file = ConfigResult.noConfig) := by
  refine ⟨?_, ?_, ?_⟩
  · intro j hj hobj
    subst hj
    cases j <;> first | rfl | simp [isPlainObject] at hobj
  · intro h; subst h; rfl
  · intro h; subst h; rfl

theorem c4_config_loader_cases_witness :
    getConfig "/home/user/.dexilion.cde.conf" FileRead.absent = ConfigResult.noConfig :=
  (c4_config_loader_cases "/home/user/.dexilion.cde.conf" FileRead.absent).2.2 rfl

/-- Claim C1 evaluated at its failing input: the echo probe against 10.0.0.5
exits with status zero, isIPAvailable returns true (src/index.js:691 returns
`status === 0`, contradicting its own doc comment on lines 652-653), and so
the reconciler does not re-prompt but proceeds with the address. -/
theorem c1_ping_zero_not_flagged :
    isIPAvailable pingZeroMainEnv (some "10.0.0.5") = true ∧
    revalidatePhase pingZeroMainEnv cfgPersistedFull = (cfgPersistedFull, false) ∧
    (mainRun pingZeroMainEnv (some cfgPersistedFull) (some cfgPersistedFull)).reprompted
      = false := by
  refine ⟨rfl, rfl, rfl⟩

/-- Claim C2 evaluated at its failing input: a loaded configuration with
externalIP present but dockerSocket missing skips the gather block entirely
(the entry condition at src/index.js:745 tests externalIP twice and never
dockerSocket), so dockerSocket is not re-gathered, nothing is persisted, and
launch proceeds with the socket still absent. -/
theorem c2_gather_skipped_despite_missing_socket :
    mainRun c2MainEnv (some cfgMissingSocket) none =
      { outcome := MainOutcome.launch cfgMissingSocket, fileState := none,
        reprompted := false } := by
  rfl

/-- Claim C9: when the revalidation step re-prompts and replaces the address,
the configuration file is not rewritten — the file content after the whole
run equals the content immediately after the (optional) persist step. -/
theorem c9_no_repersist_after_revalidation (env : MainEnv) (loaded fs0 : Option Config) :
    (mainRun env loaded fs0).reprompted = true →
    (mainRun env loaded fs0).fileState = (loadAndGather env loaded fs0).2 := by
  intro _
  unfold mainRun
  rcases h : loadAndGather env loaded fs0 with ⟨gr, fs1⟩
  cases gr <;> rfl

theorem c9_no_repersist_after_revalidation_witness :
    (mainRun c9MainEnv (some cfgPersistedFull) (some cfgPersistedFull)).fileState =
      (loadAndGather c9MainEnv (some cfgPersistedFull) (some cfgPersistedFull)).2 :=
  c9_no_repersist_after_revalidation c9MainEnv (some cfgPersistedFull)
    (some cfgPersistedFull) rfl

theorem gatherSocketStep_ssh {env : MainEnv} {c c' : Config}
    (h : gatherSocketStep env c = GatherResult.ok c') :
    c'.sshKeysDir = c.sshKeysDir := by
  simp only [gatherSocketStep] at h
  split at h
  · cases h; rfl
  · split at h
    · cases h
    · cases h; rfl

theorem gatherIPStep_ssh {env : MainEnv} {c c' : Config}
    (h : gatherIPStep env c = GatherResult.ok c') :
    c'.sshKeysDir = c.sshKeysDir := by
  simp only [gatherIPStep] at h
  split at h
  · cases h; rfl
  · split at h
    · cases h
    · cases h; rfl

/-- Claim C10: when no SSH directory was discovered and the user supplies a
nonempty path that does not exist, the gather phase behaves exactly as if the
user had entered nothing — the answer is silently discarded, no error is
raised, and sshKeysDir is left unchanged in the merged (and hence persisted)
configuration. -/
theorem c10_ssh_nonexistent_dir_discarded (env : MainEnv) (cfg : Config) :
    env.sshDirFound = none → env.answerSsh ≠ "" →
    env.dirExists env.answerSsh = false →
    gatherPhase env cfg = gatherPhase { env with answerSsh := "" } cfg
    ∧ ∀ cfg', gatherPhase env cfg = GatherResult.ok cfg' →
        cfg'.sshKeysDir = cfg.sshKeysDir := by
  intro hnone hne hnex
  have hssh : ∀ c, gatherSshStep env c = c := by
    intro c
    simp [gatherSshStep, hnone, promptUserR, hne, hnex]
  have hssh' : ∀ c, gatherSshStep { env with answerSsh := "" } c = c := by
    intro c
    simp [gatherSshStep, hnone, promptUserR]
  constructor
  · unfold gatherPhase
    rw [show gatherSocketStep { env with answerSsh := "" } cfg
          = gatherSocketStep env cfg from rfl]
    split
    · rfl
    · rw [show gatherIPStep { env with answerSsh := "" } _
            = gatherIPStep env _ from rfl]
      split
      · rfl
      · rw [hssh _, hssh' _]
  · intro cfg' hok
    unfold gatherPhase at hok
    split at hok
    · cases hok
    · rename_i c1 hs
      split at hok
      · cases hok
      · rename_i c2 hi
        injection hok with hok'
        rw [← hok', hssh c2, gatherIPStep_ssh hi, gatherSocketStep_ssh hs]

theorem c10_ssh_nonexistent_dir_discarded_witness :
    gatherPhase c10MainEnv cfgEmpty
      = gatherPhase { c10MainEnv with answerSsh := "" } cfgEmpty :=
  (c10_ssh_nonexistent_dir_discarded c10MainEnv cfgEmpty rfl (by decide) rfl).1

/-- Claim C6 as stated is false: on a concrete Linux host the candidate list
built by the code differs from the list the claim describes (the code's second
candidate is the alternative location /run/docker.sock, and the user-scoped
UID path sits fifth, not second). -/
theorem c6_candidate_list_cex :
    defaultSocketPaths socketEnvLinux ≠ claimedSocketPaths socketEnvLinux := by
  decide

/-- Claim C6 amended: the list consists, in priority order, of the standard
Unix path, the alternative /run location, the desktop-application path under
home, the package-manager path, and — on POSIX only — the user-scoped UID
docker socket followed by the user-scoped podman socket; on Windows both
user-ID-based candidates are excluded. -/
theorem c6_candidate_list_amended (env : SocketEnv) :
    (getOS env.platform = "windows" →
      defaultSocketPaths env =
        ["/var/run/docker.sock",
         "/run/docker.sock",
         env.home ++ "/.docker/desktop/docker.sock",
         "/usr/local/var/run/docker.sock"])
    ∧ (getOS env.platform ≠ "windows" →
      defaultSocketPaths env =
        ["/var/run/docker.sock",
         "/run/docker.sock",
         env.home ++ "/.docker/desktop/docker.sock",
         "/usr/local/var/run/docker.sock",
         "/run/user/" ++ toString env.uid ++ "/docker.sock",
         "/run/user/" ++ toString env.uid ++ "/podman/podman.sock"]) := by
  constructor
  · intro h; simp [defaultSocketPaths, h]
  · intro h; simp [defaultSocketPaths, h]

theorem c6_candidate_list_amended_witness :
    defaultSocketPaths socketEnvLinux =
      ["/var/run/docker.sock",
       "/run/docker.sock",
       socketEnvLinux.home ++ "/.docker/desktop/docker.sock",
       "/usr/local/var/run/docker.sock",
       "/run/user/" ++ toString socketEnvLinux.uid ++ "/docker.sock",
       "/run/user/" ++ toString socketEnvLinux.uid ++ "/podman/podman.sock"] :=
  (c6_candidate_list_amended socketEnvLinux).2 (by decide)

/-- Claim C5 as stated is false at a concrete input: with `hostname -I`
failing and `ip route get` reporting a loopback source, the src extraction
returns 127.0.0.1 with no exclusion applied, even though a later strategy
holds an acceptable address — contradicting "each strategy applies the same
exclusion rules". -/
theorem c5_ip_route_no_exclusion_cex :
    getExternalIPCommandLinePosix c5CexCmdEnv = some "127.0.0.1" ∧
    strStarts "127.0.0.1" "127." = true := by
  constructor <;> rfl

theorem parseHostnameOut_excl {out ip : String} (h : parseHostnameOut out = some ip) :
    strStarts ip "127." = false ∧ strStarts ip "169.254." = false := by
  have h' : hostnameIpOk ip = true := List.find?_some h
  simp only [hostnameIpOk, Bool.and_eq_true, Bool.not_eq_true'] at h'
  exact ⟨h'.1.2, h'.2⟩

theorem findInetQuad_excl (cs : List Char) :
    ∀ ip, findInetQuad cs = some ip →
      strStarts ip "127." = false ∧ strStarts ip "169.254." = false := by
  induction cs with
  | nil => intro ip h; simp [findInetQuad] at h
  | cons c rest ih =>
    intro ip h
    unfold findInetQuad at h
    split at h
    · split at h
      · exact ih ip h
      · rename_i hex
        injection h with hq
        subst hq
        simp only [Bool.or_eq_true, not_or, Bool.not_eq_true] at hex
        exact hex
    · exact ih ip h

theorem runCmdStrategy_some {res : Option (Int × String)}
    {parse : String → Option String} {ip : String}
    (h : runCmdStrategy res parse = some ip) : ∃ out, parse out = some ip := by
  unfold runCmdStrategy at h
  split at h
  · split at h
    · exact ⟨_, h⟩
    · cases h
  · cases h

/-- Claim C5 amended: the four strategies are tried in the order hostname -I,
ip route get, ifconfig, route get default, with the first surviving match
returned and any command failure falling through to the next; the hostname
and ifconfig/route strategies reject addresses starting with 127. or
169.254., but the outbound-route src extraction applies no exclusion (see the
counterexample). -/
theorem c5_strategy_order_amended (env : CmdEnv) :
    getExternalIPCommandLinePosix env =
      findSomeL [hostnameStrategy env, ipRouteStrategy env, ifconfigStrategy env,
        routeGetStrategy env] id
    ∧ (∀ ip, hostnameStrategy env = some ip →
        strStarts ip "127." = false ∧ strStarts ip "169.254." = false)
    ∧ (∀ ip, ifconfigStrategy env = some ip →
        strStarts ip "127." = false ∧ strStarts ip "169.254." = false)
    ∧ (∀ ip, routeGetStrategy env = some ip →
        strStarts ip "127." = false ∧ strStarts ip "169.254." = false) := by
  refine ⟨?_, ?_, ?_, ?_⟩
  · unfold getExternalIPCommandLinePosix
    cases hostnameStrategy env <;> cases ipRouteStrategy env <;>
      cases ifconfigStrategy env <;> cases routeGetStrategy env <;> simp [findSomeL]
  · intro ip h
    obtain ⟨out, hout⟩ := runCmdStrategy_some h
    exact parseHostnameOut_excl hout
  · intro ip h
    obtain ⟨out, hout⟩ := runCmdStrategy_some h
    exact findInetQuad_excl out.data ip hout
  · intro ip h
    obtain ⟨out, hout⟩ := runCmdStrategy_some h
    exact findInetQuad_excl out.data ip hout

theorem c5_strategy_order_amended_witness :
    strStarts "10.0.0.5" "127." = false ∧ strStarts "10.0.0.5" "169.254." = false :=
  (c5_strategy_order_amended c5WitCmdEnv).2.1 "10.0.0.5" rfl

theorem findGoodAddr_eq_find (addrs : List NetAddr) :
    findGoodAddr addrs = (addrs.find? goodAddr).map (fun a => a.address) := by
  induction addrs with
  | nil => rfl
  | cons a as ih =>
    simp only [findGoodAddr, findSomeL]
    cases hg : goodAddr a with
    | true =>
      rw [List.find?_cons_of_pos _ hg]
      simp [hg]
    | false =>
      rw [List.find?_cons_of_neg _ (by simp [hg])]
      simpa [hg] using ih

theorem find?_append_eq {α : Type} (p : α → Bool) (l1 l2 : List α) :
    (l1 ++ l2).find? p =
      match l1.find? p with
      | some x => some x
      | none => l2.find? p := by
  induction l1 with
  | nil => simp
  | cons a as ih =>
    cases hp : p a with
    | true =>
      rw [List.cons_append, List.find?_cons_of_pos _ hp, List.find?_cons_of_pos _ hp]
    | false =>
      rw [List.cons_append, List.find?_cons_of_neg _ (by simp [hp]),
        List.find?_cons_of_neg _ (by simp [hp]), ih]

theorem secondPassScan_eq_first_over_all (nets : Nets) :
    secondPassScan nets = ((allAddrs nets).find? goodAddr).map (fun a => a.address) := by
  induction nets with
  | nil => rfl
  | cons e rest ih =>
    simp only [secondPassScan, findSomeL, allAddrs, List.flatMap_cons]
    rw [find?_append_eq, findGoodAddr_eq_find]
    cases h2 : e.2.find? goodAddr with
    | some a => simp
    | none => simpa [allAddrs] using ih

/-- Claim C8: whenever some priority-named interface carries a non-internal
IPv4 address, getExternalIP returns the address of a priority-named interface
regardless of enumeration order; and when the first pass finds nothing the
result falls to the second pass, which yields the first non-internal IPv4
address over all interfaces in enumeration order. -/
theorem c8_two_pass_scan (nets : Nets) (cmd : CmdEnv) :
    ((∃ p ∈ interfaceNamePriorities, ∃ e ∈ nets,
        nameHasPriorityTag p e.1 = true ∧ ∃ a ∈ e.2, goodAddr a = true) →
      ∃ e ∈ nets, (∃ p ∈ interfaceNamePriorities, nameHasPriorityTag p e.1 = true) ∧
        ∃ a ∈ e.2, goodAddr a = true ∧ getExternalIP nets cmd = some a.address)
    ∧ (firstPassScan nets = none →
        getExternalIP nets cmd =
          match secondPassScan nets with
          | some ip => some ip
          | none => getExternalIPCommandLinePosix cmd)
    ∧ secondPassScan nets = ((allAddrs nets).find? goodAddr).map (fun a => a.address) := by
  refine ⟨?_, ?_, secondPassScan_eq_first_over_all nets⟩
  · rintro ⟨p, hp, e, he, htag, a, ha, hga⟩
    have hne : firstPassScan nets ≠ none := by
      intro hnone
      have h1 := findSomeL_eq_none.mp hnone p hp
      have h2 := findSomeL_eq_none.mp h1 e he
      rw [if_pos htag] at h2
      have h3 := findSomeL_eq_none.mp h2 a ha
      rw [if_pos hga] at h3
      cases h3
    cases hip : firstPassScan nets with
    | none => exact absurd hip hne
    | some ip =>
      obtain ⟨p', hp', hinner⟩ := findSomeL_some hip
      obtain ⟨e', he', hif⟩ := findSomeL_some hinner
      by_cases htag' : nameHasPriorityTag p' e'.1 = true
      · rw [if_pos htag'] at hif
        obtain ⟨a', ha', hia⟩ := findSomeL_some hif
        by_cases hga' : goodAddr a' = true
        · rw [if_pos hga'] at hia
          injection hia with haddr
          refine ⟨e', he', ⟨p', hp', htag'⟩, a', ha', hga', ?_⟩
          unfold getExternalIP
          rw [hip, haddr]
        · rw [if_neg hga'] at hia
          cases hia
      · rw [if_neg htag'] at hif
        cases hif
  · intro h
    unfold getExternalIP
    rw [h]

theorem c8_two_pass_scan_witness :
    ∃ e ∈ netsC8, (∃ p ∈ interfaceNamePriorities, nameHasPriorityTag p e.1 = true) ∧
      ∃ a ∈ e.2, goodAddr a = true ∧
        getExternalIP netsC8 cmdEnvAllFail = some a.address := by
  refine (c8_two_pass_scan netsC8 cmdEnvAllFail).1 ?_
  exact ⟨"eth", by decide,
    ("eth0", [{ family := "IPv4", internal := false, address := "10.0.0.7" }]),
    by decide, by decide,
    { family := "IPv4", internal := false, address := "10.0.0.7" },
    by decide, by decide⟩

theorem rchar_mem {c : Char} {cs r : List Char} (h : r ∈ rchar c cs) : cs = c :: r := by
  cases cs with
  | nil => simp [rchar] at h
  | cons d rest =>
    simp only [rchar] at h
    split at h
    · rename_i hd
      simp at h
      subst h
      rw [hd]
    · simp at h

theorem rrange_mem {lo hi : Char} {cs r : List Char} (h : r ∈ rrange lo hi cs) :
    ∃ d, cs = d :: r ∧ lo.toNat ≤ d.toNat ∧ d.toNat ≤ hi.toNat := by
  cases cs with
  | nil => simp [rrange] at h
  | cons d rest =>
    simp only [rrange] at h
    split at h
    · rename_i hd
      simp at h
      subst h
      exact ⟨d, rfl, hd⟩
    · simp at h

theorem rseq_mem {p q : List Char → List (List Char)} {cs r : List Char}
    (h : r ∈ rseq p q cs) : ∃ m ∈ p cs, r ∈ q m := by
  simpa [rseq, List.mem_flatMap] using h

theorem ralt_mem {p q : List Char → List (List Char)} {cs r : List Char}
    (h : r ∈ ralt p q cs) : r ∈ p cs ∨ r ∈ q cs := by
  simpa [ralt] using h

theorem ropt_mem {p : List Char → List (List Char)} {cs r : List Char}
    (h : r ∈ ropt p cs) : r ∈ p cs ∨ r = cs := by
  simpa [ropt] using h

theorem octB_one {a : Char} (ha : 48 ≤ a.toNat ∧ a.toNat ≤ 57) : octB [a] = true := by
  obtain ⟨h1, h2⟩ := ha
  simp [octB, isDigitCh, octetValue]
  omega

theorem octB_two {a b : Char} (ha : 48 ≤ a.toNat ∧ a.toNat ≤ 57)
    (hb : 48 ≤ b.toNat ∧ b.toNat ≤ 57) : octB [a, b] = true := by
  obtain ⟨ha1, ha2⟩ := ha
  obtain ⟨hb1, hb2⟩ := hb
  simp [octB, isDigitCh, octetValue]
  omega

theorem octB_three {a b c : Char} (ha : 48 ≤ a.toNat ∧ a.toNat ≤ 57)
    (hb : 48 ≤ b.toNat ∧ b.toNat ≤ 57) (hc : 48 ≤ c.toNat ∧ c.toNat ≤ 57)
    (hval : ((a.toNat - 48) * 10 + (b.toNat - 48)) * 10 + (c.toNat - 48) ≤ 255) :
    octB [a, b, c] = true := by
  obtain ⟨ha1, ha2⟩ := ha
  obtain ⟨hb1, hb2⟩ := hb
  obtain ⟨hc1, hc2⟩ := hc
  simp [octB, isDigitCh, octetValue]
  omega

theorem octetRe_sound {cs r : List Char} (h : r ∈ octetRe cs) :
    ∃ p, cs = p ++ r ∧ octB p = true := by
  rcases ralt_mem h with hA | hBC
  · obtain ⟨m1, hm1, h1⟩ := rseq_mem hA
    have e1 := rchar_mem hm1
    obtain ⟨m2, hm2, h2⟩ := rseq_mem h1
    have e2 := rchar_mem hm2
    obtain ⟨d, e3, hlo, hhi⟩ := rrange_mem h2
    have c0 : ('0' : Char).toNat = 48 := rfl
    have c5 : ('5' : Char).toNat = 53 := rfl
    rw [c0] at hlo
    rw [c5] at hhi
    refine ⟨['2', '5', d], ?_, ?_⟩
    · rw [e1, e2, e3]; rfl
    · refine octB_three (by decide) (by decide) ⟨hlo, by omega⟩ ?_
      have d2 : ('2' : Char).toNat = 50 := rfl
      have d5 : ('5' : Char).toNat = 53 := rfl
      rw [d2, d5]
      omega
  · rcases ralt_mem hBC with hB | hC
    · obtain ⟨m1, hm1, h1⟩ := rseq_mem hB
      have e1 := rchar_mem hm1
      obtain ⟨m2, hm2, h2⟩ := rseq_mem h1
      obtain ⟨d1, e2, hlo1, hhi1⟩ := rrange_mem hm2
      obtain ⟨d2, e3, hlo2, hhi2⟩ := rrange_mem h2
      have c0 : ('0' : Char).toNat = 48 := rfl
      have c4 : ('4' : Char).toNat = 52 := rfl
      have c9 : ('9' : Char).toNat = 57 := rfl
      rw [c0] at hlo1 hlo2
      rw [c4] at hhi1
      rw [c9] at hhi2
      refine ⟨['2', d1, d2], ?_, ?_⟩
      · rw [e1, e2, e3]; rfl
      · refine octB_three (by decide) ⟨hlo1, by omega⟩ ⟨hlo2, hhi2⟩ ?_
        have h2' : ('2' : Char).toNat = 50 := rfl
        rw [h2']
        omega
    · obtain ⟨m1, hm1, h1⟩ := rseq_mem hC
      obtain ⟨m2, hm2, h2⟩ := rseq_mem h1
      obtain ⟨b, e2, hlob, hhib⟩ := rrange_mem hm2
      have c0 : ('0' : Char).toNat = 48 := rfl
      have c1 : ('1' : Char).toNat = 49 := rfl
      have c9 : ('9' : Char).toNat = 57 := rfl
      rw [c0] at hlob
      rw [c9] at hhib
      rcases ropt_mem hm1 with hopt1 | heq1
      · obtain ⟨a, e1, hloa, hhia⟩ := rrange_mem hopt1
        rw [c0] at hloa
        rw [c1] at hhia
        rcases ropt_mem h2 with hopt2 | heq2
        · obtain ⟨c2, e3, hloc, hhic⟩ := rrange_mem hopt2
          rw [c0] at hloc
          rw [c9] at hhic
          refine ⟨[a, b, c2], ?_, ?_⟩
          · rw [e1, e2, e3]; rfl
          · exact octB_three ⟨hloa, by omega⟩ ⟨hlob, hhib⟩ ⟨hloc, hhic⟩ (by omega)
        · subst heq2
          refine ⟨[a, b], ?_, ?_⟩
          · rw [e1, e2]; rfl
          · exact octB_two ⟨hloa, by omega⟩ ⟨hlob, hhib⟩
      · subst heq1
        rcases ropt_mem h2 with hopt2 | heq2
        · obtain ⟨c2, e3, hloc, hhic⟩ := rrange_mem hopt2
          rw [c0] at hloc
          rw [c9] at hhic
          refine ⟨[b, c2], ?_, ?_⟩
          · rw [e2, e3]; rfl
          · exact octB_two ⟨hlob, hhib⟩ ⟨hloc, hhic⟩
        · subst heq2
          refine ⟨[b], ?_, ?_⟩
          · rw [e2]; rfl
          · exact octB_one ⟨hlob, hhib⟩

theorem ipRe_sound {cs : List Char} (h : ([] : List Char) ∈ ipRe cs) :
    ∃ p1 p2 p3 p4, cs = p1 ++ '.' :: (p2 ++ '.' :: (p3 ++ '.' :: p4)) ∧
      octB p1 = true ∧ octB p2 = true ∧ octB p3 = true ∧ octB p4 = true := by
  obtain ⟨m1, hm1, h1⟩ := rseq_mem h
  obtain ⟨t1, ht1, hd1⟩ := rseq_mem hm1
  have e1 := rchar_mem hd1
  obtain ⟨p1, ep1, hb1⟩ := octetRe_sound ht1
  obtain ⟨m2, hm2, h2⟩ := rseq_mem h1
  obtain ⟨t2, ht2, hd2⟩ := rseq_mem hm2
  have e2 := rchar_mem hd2
  obtain ⟨p2, ep2, hb2⟩ := octetRe_sound ht2
  obtain ⟨m3, hm3, h3⟩ := rseq_mem h2
  obtain ⟨t3, ht3, hd3⟩ := rseq_mem hm3
  have e3 := rchar_mem hd3
  obtain ⟨p3, ep3, hb3⟩ := octetRe_sound ht3
  obtain ⟨p4, ep4, hb4⟩ := octetRe_sound h3
  refine ⟨p1, p2, p3, p4, ?_, hb1, hb2, hb3, hb4⟩
  rw [ep1, e1, ep2, e2, ep3, e3, ep4]
  simp

theorem octB_no_dot {p : List Char} (h : octB p = true) : ∀ c ∈ p, c ≠ '.' := by
  intro c hc hdot
  have hall : p.all isDigitCh = true := by
    simp only [octB, Bool.and_eq_true] at h
    exact h.1.2
  have hd := List.all_eq_true.mp hall c hc
  subst hdot
  exact absurd hd (by decide)

theorem splitDots_no_dot {p : List Char} (h : ∀ c ∈ p, c ≠ '.') :
    splitDots p = [p] := by
  induction p with
  | nil => rfl
  | cons c rest ih =>
    have hc : c ≠ '.' := h c (by simp)
    have hrest := ih (fun x hx => h x (by simp [hx]))
    simp only [splitDots]
    rw [if_neg hc, hrest]

theorem splitDots_append {p rest : List Char} (h : ∀ c ∈ p, c ≠ '.') :
    splitDots (p ++ '.' :: rest) = p :: splitDots rest := by
  induction p with
  | nil => simp [splitDots]
  | cons c p' ih =>
    have hc : c ≠ '.' := h c (by simp)
    have hp' := ih (fun x hx => h x (by simp [hx]))
    simp only [List.cons_append, splitDots]
    rw [if_neg hc]
    simp only [List.append_eq]
    rw [hp']

theorem ipRegexTest_sound {s : String} (h : ipRegexTest s = true) :
    dottedQuadB s = true := by
  have hmem : ([] : List Char) ∈ ipRe s.data := List.mem_of_elem_eq_true h
  obtain ⟨p1, p2, p3, p4, hcs, h1, h2, h3, h4⟩ := ipRe_sound hmem
  unfold dottedQuadB
  rw [hcs, splitDots_append (octB_no_dot h1), splitDots_append (octB_no_dot h2),
    splitDots_append (octB_no_dot h3), splitDots_no_dot (octB_no_dot h4)]
  simp [h1, h2, h3, h4]

/-- Claim C7: any string that is not four dot-separated decimal octets in
0-255 is rejected by the format validation, so the liveness check returns
false without the probe result ever mattering; the named examples behave as
the claim lists them. -/
theorem c7_format_validator :
    (∀ (s : String) (env : MainEnv), dottedQuadB s = false →
      isIPAvailable env (some s) = false)
    ∧ ipRegexTest "192.168.1.42" = true
    ∧ ipRegexTest "999.1.1.1" = false
    ∧ ipRegexTest "1.2.3" = false
    ∧ ipRegexTest "abc.def.1.1" = false := by
  refine ⟨?_, by decide, by decide, by decide, by decide⟩
  intro s env hdq
  have hdef : isIPAvailable env (some s) =
      (if s = "" then false
       else if ipRegexTest s then
         match env.ping s with
         | some st => st == 0
         | none => false
       else false) := rfl
  rw [hdef]
  by_cases hs : s = ""
  · rw [if_pos hs]
  · rw [if_neg hs]
    cases hre : ipRegexTest s with
    | false => simp
    | true =>
      have := ipRegexTest_sound hre
      rw [hdq] at this
      cases this

theorem c7_format_validator_witness :
    isIPAvailable c7MainEnv (some "1.2.3") = false :=
  c7_format_validator.1 "1.2.3" c7MainEnv (by decide)
